import Mathlib

/-!
Verification of the deduplication / incremental-sync layer, the structured
response extractor, and the spreadsheet publisher of the linkedin-job-search
repository, as a shallow embedding in Lean.

Source files modelled:
* `scripts/job_database.py` — the SQLite-backed Listing Store and Run History
  Log (`add_jobs_to_database`, `filter_new_jobs`, `get_known_job_ids`,
  `mark_jobs_as_processed`, `record_scraping_run`).
* `scripts/llm_analyzer.py` — `extract_response_sections` (regex-tag
  extraction over generated text) and the post-collection sort of
  `analyze_jobs_batch`.
* `scripts/sheets_integration.py` — `get_existing_job_data` and
  `append_to_sheet` (remote tabular upsert by the key in column index 6).

Conventions of the embedding: the SQLite `jobs` table is a list of rows in
insertion order; `datetime.now().strftime("%Y-%m-%d")` is passed in as an
explicit date parameter (ISO dates compare correctly as strings); Python
dictionaries of job fields are records whose absent keys are already
defaulted to `""` the way `str(job.get(k, ""))` does; Python floats produced
by the extractor are represented exactly as rationals (the only numeric
values the claims mention, `0.0` and decimal literals, are exact in both
representations); fallible SQL inserts return `Except`.
-/

namespace LinkedinJobSearch

/-! ### String utilities shared by the embedding

Python string operations used by the source, modelled on `List Char`.
`str.upper()` agrees with `Char.toUpper` on ASCII (all keyword and tag
characters in the source are ASCII); `str.strip()` and the regex class `\s`
both use the whitespace characters space, tab, newline, carriage return,
vertical tab and form feed.
-/

/-- Whitespace test matching Python `str.strip()` / regex `\s` on ASCII. -/
def pyIsSpace (c : Char) : Bool :=
  c = ' ' || c = '\t' || c = '\n' || c = '\r' || c = '\x0b' || c = '\x0c'

/-- Python `str.upper()` restricted to ASCII input. -/
def pyUpper (s : String) : String :=
  ⟨s.data.map Char.toUpper⟩

/-- Python `str.strip()`: drop whitespace from both ends. -/
def stripChars (l : List Char) : List Char :=
  ((l.dropWhile pyIsSpace).reverse.dropWhile pyIsSpace).reverse

/-- Substring test, modelling Python `pat in s`. -/
def listContains (pat : List Char) : List Char → Bool
  | [] => pat.isPrefixOf ([] : List Char)
  | x :: t => pat.isPrefixOf (x :: t) || listContains pat t

/-- Python `kw in u` on strings. -/
def containsKW (kw u : String) : Bool := listContains kw.data u.data

/-- Python `u.startswith(kw)` on strings. -/
def startsWithKW (kw u : String) : Bool := kw.data.isPrefixOf u.data

/-! ### Response extractor (`scripts/llm_analyzer.py`, lines 195–323)

`extract_response_sections` runs, for each tagged section, a regex search of
the shape `re.search(r'<tag>\s*(.+?)\s*</tag>', text, re.DOTALL)` and strips
the captured group. `re.search` returns the leftmost match; the lazy group
makes the match end at the first occurrence of the closing tag that leaves
at least one character of content. The net observable used by the source is
`match.group(1).strip()`, which equals the content between the opening tag
and that first closing tag, stripped of surrounding whitespace.
-/

/-- Content before the first occurrence of the closing tag `c` that starts
at offset at least 1 (the lazy group `(.+?)` must consume at least one
character); `none` when no such occurrence exists. -/
def contentBeforeCloser (c : List Char) : List Char → Option (List Char)
  | [] => none
  | x :: t =>
    if c.isPrefixOf t then some [x]
    else (contentBeforeCloser c t).map (fun l => x :: l)

/-- Leftmost search for `<tag>…</tag>` (pattern `<tag>\s*(.+?)\s*</tag>`
with `re.DOTALL`): scan for an occurrence of the opening tag from which a
closing tag is reachable, and return the enclosed content. -/
def tagSearchAux (o c : List Char) : List Char → Option (List Char)
  | [] => none
  | x :: t =>
    if o.isPrefixOf (x :: t) then
      match contentBeforeCloser c ((x :: t).drop o.length) with
      | some content => some content
      | none => tagSearchAux o c t
    else tagSearchAux o c t

/-- Search for a tagged section and return `group(1).strip()`. -/
def tagSearch (tag : String) (s : String) : Option String :=
  (tagSearchAux ("<" ++ tag ++ ">").data ("</" ++ tag ++ ">").data s.data).map
    (fun l => ⟨stripChars l⟩)

/-- Leftmost search for `<score>(\d+(?:\.\d+)?)</score>`: the digit run is
greedy, the optional fractional part is tried first, and the literal closing
tag must follow immediately (shrinking a greedy digit run never helps, since
the character after a shortened run is a digit while both continuations
require a non-digit). Returns the captured numeric string. -/
def scoreAux (o c : List Char) : List Char → Option (List Char)
  | [] => none
  | x :: t =>
    if o.isPrefixOf (x :: t) then
      let rest := (x :: t).drop o.length
      let d1 := rest.takeWhile Char.isDigit
      if d1.isEmpty then scoreAux o c t
      else
        let r1 := rest.drop d1.length
        let cand : Option (List Char) :=
          match r1 with
          | '.' :: r2 =>
            let d2 := r2.takeWhile Char.isDigit
            if !d2.isEmpty && c.isPrefixOf (r2.drop d2.length) then
              some (d1 ++ '.' :: d2)
            else none
          | _ => if c.isPrefixOf r1 then some d1 else none
        match cand with
        | some v => some v
        | none => scoreAux o c t
    else scoreAux o c t

/-- Search modelling `re.search(r'<score>(\d+(?:\.\d+)?)</score>', text)`. -/
def scoreSearch (s : String) : Option (List Char) :=
  scoreAux "<score>".data "</score>".data s.data

/-- First match of `(\d+(?:\.\d+)?)` anywhere in the text (used on the
content of `<human_fit>` and `<ats_fit>`): the match starts at the first
digit, the digit runs are greedy, and the fractional part is taken only when
a digit follows the dot. -/
def findNumberAux : List Char → Option (List Char)
  | [] => none
  | x :: t =>
    if x.isDigit then
      let d1 := (x :: t).takeWhile Char.isDigit
      let r1 := (x :: t).drop d1.length
      some (match r1 with
        | '.' :: r2 =>
          let d2 := r2.takeWhile Char.isDigit
          if d2.isEmpty then d1 else d1 ++ '.' :: d2
        | _ => d1)
    else findNumberAux t

/-- Numeric value of a capture of `\d+(?:\.\d+)?`.  Python converts with
`float(...)`; the captures compared by the claims (`0.0` and short decimal
literals) are exact in both representations, so the value is kept as an
exact rational. -/
def digitsToNat (l : List Char) : Nat :=
  l.foldl (fun n c => 10 * n + (c.toNat - 48)) 0

/-- Rational value of a captured numeric string. -/
def ratOfNumeric (l : List Char) : ℚ :=
  let ip := l.takeWhile Char.isDigit
  let rest := l.drop ip.length
  match rest with
  | '.' :: fp => (digitsToNat ip : ℚ) + (digitsToNat fp : ℚ) / ((10 : ℚ) ^ fp.length)
  | _ => (digitsToNat ip : ℚ)

/-- Record produced by `extract_response_sections` (the `sections` dict):
three numeric fields, nine text fields, and the derived recommendation
code. -/
structure Sections where
  score : ℚ
  human_fit : ℚ
  human_fit_text : String
  ats_fit : ℚ
  ats_fit_text : String
  key_strengths : String
  critical_gaps : String
  cv_tailoring : String
  experience_positioning : String
  talking_points : String
  recommendation : String
  recommendation_code : String
  summary : String
deriving DecidableEq, Repr

/-- Lines 207–216: the primary score field, defaulting to `0.0` when the
tag is absent (the `float` conversion of a capture of `\d+(?:\.\d+)?` never
raises, so the `except ValueError` branch is unreachable). -/
def scoreField (s : String) : ℚ :=
  match scoreSearch s with
  | some d => ratOfNumeric d
  | none => 0

/-- Lines 218–252: numeric sub-field of `<human_fit>` / `<ats_fit>` — the
first number occurring in the captured content, else `0.0`. -/
def numField (tag : String) (s : String) : ℚ :=
  match tagSearch tag s with
  | some content =>
    match findNumberAux content.data with
    | some d => ratOfNumeric d
    | none => 0
  | none => 0

/-- Free-text field of a tagged section: the stripped capture, else `""`
(the shared shape of lines 218–287 and 316–321). -/
def textField (tag : String) (s : String) : String :=
  (tagSearch tag s).getD ""

/-- Lines 295–311: derivation of the categorical recommendation code from
the captured recommendation text. -/
def recommendationCodeOf (t : String) : String :=
  let u := pyUpper t
  if startsWithKW "PURSUE" u then "PURSUE"
  else if startsWithKW "CONSIDER" u then "CONSIDER"
  else if startsWithKW "AVOID" u then "AVOID"
  else if containsKW "PURSUE" u then "PURSUE"
  else if containsKW "CONSIDER" u then "CONSIDER"
  else if containsKW "AVOID" u then "AVOID"
  else "REVIEW"

/-- Lines 289–314: the recommendation text and its code; when the tag is
absent the pair defaults to `("", "REVIEW")`. -/
def recFields (s : String) : String × String :=
  match tagSearch "recommendation" s with
  | some t => (t, recommendationCodeOf t)
  | none => ("", "REVIEW")

/-- The nine tags searched with the `<tag>\s*(.+?)\s*</tag>` pattern, in
source order (lines 218–321); the primary `score` tag (lines 207–216) uses
the numeric pattern and is searched separately. -/
def labeledTags : List String :=
  ["human_fit", "ats_fit", "key_strengths", "critical_gaps", "cv_tailoring",
   "experience_positioning", "talking_points", "recommendation", "summary"]

/-- `extract_response_sections` (lines 195–323): each field of the record is
computed from the search for its own tag only. -/
def extract_response_sections (s : String) : Sections where
  score := scoreField s
  human_fit := numField "human_fit" s
  human_fit_text := textField "human_fit" s
  ats_fit := numField "ats_fit" s
  ats_fit_text := textField "ats_fit" s
  key_strengths := textField "key_strengths" s
  critical_gaps := textField "critical_gaps" s
  cv_tailoring := textField "cv_tailoring" s
  experience_positioning := textField "experience_positioning" s
  talking_points := textField "talking_points" s
  recommendation := (recFields s).1
  recommendation_code := (recFields s).2
  summary := textField "summary" s

/-! ### Listing Store and Run History Log (`scripts/job_database.py`)

The SQLite `jobs` table (primary key `job_id`) is modelled as a list of rows
in insertion order; operations mirror the SQL statements of the source.
`datetime.now().strftime("%Y-%m-%d")` is an explicit parameter.
-/

/-- Row of the `jobs` table (`initialize_database`, lines 41–51). -/
structure JobRow where
  job_id : String
  title : String
  company : String
  location : String
  first_seen_date : String
  last_checked_date : String
  is_processed : Bool
deriving DecidableEq, Repr

/-- Input job dictionary: `str(job.get(k, ""))` / `job.get(k, "")` already
applied, so an absent `job_id` key is the empty string. -/
structure Job where
  job_id : String
  title : String
  company : String
  location : String
deriving DecidableEq, Repr

/-- `SELECT job_id FROM jobs WHERE job_id = ?` followed by
`fetchone() is not None` (lines 113–114). -/
def jobExists (db : List JobRow) (jid : String) : Bool :=
  db.any (fun r => decide (r.job_id = jid))

/-- `UPDATE jobs SET last_checked_date = ? WHERE job_id = ?`
(lines 118–121). -/
def updateLastChecked (db : List JobRow) (jid d : String) : List JobRow :=
  db.map (fun r => if r.job_id = jid then { r with last_checked_date := d } else r)

/-- `INSERT INTO jobs (...) VALUES (...)` (lines 125–135); `is_processed`
takes the column default `0`. -/
def insertJob (db : List JobRow) (j : Job) (d : String) : List JobRow :=
  db ++ [⟨j.job_id, j.title, j.company, j.location, d, d, false⟩]

/-- Loop body of `add_jobs_to_database` (lines 107–136), threading the
table and the two counters. -/
def addJobsStep (d : String) (st : List JobRow × Nat × Nat) (j : Job) :
    List JobRow × Nat × Nat :=
  if j.job_id = "" then st
  else if jobExists st.1 j.job_id then
    (updateLastChecked st.1 j.job_id d, st.2.1, st.2.2 + 1)
  else
    (insertJob st.1 j d, st.2.1 + 1, st.2.2)

/-- `add_jobs_to_database(jobs)` (lines 88–142): returns the updated table
together with `{"new": ..., "updated": ...}` as `(table, new, updated)`. -/
def add_jobs_to_database (db : List JobRow) (d : String) (jobs : List Job) :
    List JobRow × Nat × Nat :=
  jobs.foldl (addJobsStep d) (db, 0, 0)

/-- `get_known_job_ids()` (lines 69–85): `SELECT job_id FROM jobs` as a
membership structure (the Python set). -/
def get_known_job_ids (db : List JobRow) : List String :=
  db.map (fun r => r.job_id)

/-- `filter_new_jobs(jobs)` (lines 178–194): list comprehension keeping the
jobs whose identifier is not in the known set, in input order. -/
def filter_new_jobs (db : List JobRow) (jobs : List Job) : List Job :=
  jobs.filter (fun j => decide (j.job_id ∉ get_known_job_ids db))

/-- `mark_jobs_as_processed(job_ids)` (lines 145–175): early return `0` on
an empty input, else `UPDATE jobs SET is_processed = 1 WHERE job_id IN (...)`
returning `cursor.rowcount` (the number of matched rows). -/
def mark_jobs_as_processed (db : List JobRow) (ids : List String) :
    List JobRow × Nat :=
  if ids.isEmpty then (db, 0)
  else
    (db.map (fun r => if ids.contains r.job_id then { r with is_processed := true } else r),
     (db.filter (fun r => ids.contains r.job_id)).length)

/-- Row of the `scraping_history` table (primary key `run_id`,
`initialize_database` lines 54–62). -/
structure RunRow where
  run_id : String
  timestamp : String
  search_config : String
  job_count : Nat
  new_job_count : Nat
deriving DecidableEq, Repr

/-- `record_scraping_run` (lines 197–222): a plain `INSERT` into
`scraping_history`; because `run_id` is the table's primary key, SQLite
raises `IntegrityError` (unique-constraint violation) on a duplicate and
inserts nothing, modelled as `Except.error`. `datetime.now().isoformat()`
and `json.dumps(search_config)` are explicit parameters. -/
def record_scraping_run (hist : List RunRow) (run_id ts cfg : String)
    (job_count new_job_count : Nat) : Except String (List RunRow) :=
  if hist.any (fun r => decide (r.run_id = run_id)) then
    Except.error "UNIQUE constraint failed: scraping_history.run_id"
  else
    Except.ok (hist ++ [⟨run_id, ts, cfg, job_count, new_job_count⟩])

/-! ### Publisher (`scripts/sheets_integration.py`)

The remote sheet's data range is a list of rows, each a list of cell
strings; the happy path (no transport or authentication failure) is
modelled, mirroring the body of the `try` blocks. Row positions in the
model's list correspond to the A1 positions of the source (`row_index + 2`)
by a fixed offset.
-/

/-- Remote sheet row: a list of cell values. -/
abbrev SheetRow := List String

/-- Builder of `get_existing_job_data` (lines 168–179): rows are scanned in
order, rows with fewer than 7 columns are skipped, and for duplicate job ids
the later row overrides the earlier one in the Python dict; `idx` is the
0-based position of the head of the remaining list. -/
def existingLookupAux (k : String) : Nat → List SheetRow → Option (Nat × SheetRow)
  | _, [] => none
  | idx, r :: rest =>
    match existingLookupAux k (idx + 1) rest with
    | some v => some v
    | none =>
      if 7 ≤ r.length ∧ r.get? 6 = some k then some (idx, r) else none

/-- `get_existing_job_data(...)[job_id]` (lines 141–183): the row index and
data the dict associates to `k`, or `none` when `k` is not a key. -/
def get_existing_job_data (remote : List SheetRow) (k : String) :
    Option (Nat × SheetRow) :=
  existingLookupAux k 0 remote

/-- Loop body of `append_to_sheet` (lines 219–234): a row with at least 7
cells is routed by its key `row[6]` into the update queue (key present
remotely and `force_update`), dropped (key present, no `force_update`), or
the append list (key absent); shorter rows fall through the `if` untouched. -/
def collectStep (remote : List SheetRow) (force : Bool)
    (st : List SheetRow × List (Nat × SheetRow)) (row : SheetRow) :
    List SheetRow × List (Nat × SheetRow) :=
  if 7 ≤ row.length then
    match get_existing_job_data remote ((row.get? 6).getD "") with
    | some p => if force then (st.1, st.2 ++ [(p.1, row)]) else st
    | none => (st.1 ++ [row], st.2)
  else st

/-- The `filtered_values` and `updates` lists after the loop of
`append_to_sheet` (lines 213–234). -/
def collectRows (remote : List SheetRow) (force : Bool) (values : List SheetRow) :
    List SheetRow × List (Nat × SheetRow) :=
  values.foldl (collectStep remote force) ([], [])

/-- `batchUpdate` (lines 236–246): each queued update replaces the row at
its recorded position. -/
def applyUpdates (remote : List SheetRow) (ups : List (Nat × SheetRow)) :
    List SheetRow :=
  ups.foldl (fun acc p => acc.set p.1 p.2) remote

/-- `append_to_sheet(sheet_id, sheet_range, values, force_update)`
(lines 186–268) on the happy path: returns the success flag and the new
remote data range. An empty `values` returns `True` immediately; otherwise
updates are batch-applied only under `force_update`, and the new rows are
appended at the end. -/
def append_to_sheet (remote : List SheetRow) (values : List SheetRow)
    (force_update : Bool) : Bool × List SheetRow :=
  if values.isEmpty then (true, remote)
  else
    let fu := collectRows remote force_update values
    let r1 := if force_update && !fu.2.isEmpty then applyUpdates remote fu.2 else remote
    let r2 := if !fu.1.isEmpty then r1 ++ fu.1 else r1
    (true, r2)

/-! ### Batch analysis ordering (`scripts/llm_analyzer.py`, lines 541–565)

The concurrent analysis tasks are collected with `asyncio.wait(...,
FIRST_COMPLETED)` in completion order; the collected list (in an arbitrary
order, modelled as the function's input) is then sorted in place by
`results.sort(key=lambda x: x.get('match_score', 0), reverse=True)`, a
stable descending sort, modelled with the stable `List.mergeSort`.
-/

/-- Analysis result as far as the ordering is concerned: the match score
(`x.get('match_score', 0)`) plus an identifying payload. -/
structure AnalysisResult where
  job_id : String
  match_score : ℚ
deriving DecidableEq, Repr

/-- The aggregation tail of `analyze_jobs_batch` (lines 541–565): the
results collected in completion order are sorted by match score
descending. -/
def analyze_jobs_batch (collected : List AnalysisResult) : List AnalysisResult :=
  collected.mergeSort (fun a b => decide (b.match_score ≤ a.match_score))

/-! ### Theorems -/

/-- C3: for every input string, `extract_response_sections` returns (total,
by construction of the embedding — the source catches its only possible
parse failure) a record containing every field; on the empty string every
numeric field is `0.0`, every text field is `""`, and the recommendation
code is `"REVIEW"`. -/
theorem extract_empty_defaults :
    extract_response_sections "" =
      { score := 0, human_fit := 0, human_fit_text := "", ats_fit := 0, ats_fit_text := "",
        key_strengths := "", critical_gaps := "", cv_tailoring := "",
        experience_positioning := "", talking_points := "", recommendation := "",
        recommendation_code := "REVIEW", summary := "" } := by
  rfl

/-- C4: for every input containing a recommendation section capturing text
`t`, the categorical code is derived from `t` by the leading-keyword check
in the order PURSUE, CONSIDER, AVOID, then by scanning anywhere in the text
in the same fixed priority order, defaulting to REVIEW; the checks are
case-insensitive (performed on the uppercased text). -/
theorem recommendation_code_cases (s t : String)
    (h : tagSearch "recommendation" s = some t) :
    (extract_response_sections s).recommendation = t ∧
    (startsWithKW "PURSUE" (pyUpper t) = true →
      (extract_response_sections s).recommendation_code = "PURSUE") ∧
    (startsWithKW "PURSUE" (pyUpper t) = false →
      startsWithKW "CONSIDER" (pyUpper t) = true →
      (extract_response_sections s).recommendation_code = "CONSIDER") ∧
    (startsWithKW "PURSUE" (pyUpper t) = false →
      startsWithKW "CONSIDER" (pyUpper t) = false →
      startsWithKW "AVOID" (pyUpper t) = true →
      (extract_response_sections s).recommendation_code = "AVOID") ∧
    (startsWithKW "PURSUE" (pyUpper t) = false →
      startsWithKW "CONSIDER" (pyUpper t) = false →
      startsWithKW "AVOID" (pyUpper t) = false →
      containsKW "PURSUE" (pyUpper t) = true →
      (extract_response_sections s).recommendation_code = "PURSUE") ∧
    (startsWithKW "PURSUE" (pyUpper t) = false →
      startsWithKW "CONSIDER" (pyUpper t) = false →
      startsWithKW "AVOID" (pyUpper t) = false →
      containsKW "PURSUE" (pyUpper t) = false →
      containsKW "CONSIDER" (pyUpper t) = true →
      (extract_response_sections s).recommendation_code = "CONSIDER") ∧
    (startsWithKW "PURSUE" (pyUpper t) = false →
      startsWithKW "CONSIDER" (pyUpper t) = false →
      startsWithKW "AVOID" (pyUpper t) = false →
      containsKW "PURSUE" (pyUpper t) = false →
      containsKW "CONSIDER" (pyUpper t) = false →
      containsKW "AVOID" (pyUpper t) = true →
      (extract_response_sections s).recommendation_code = "AVOID") ∧
    (startsWithKW "PURSUE" (pyUpper t) = false →
      startsWithKW "CONSIDER" (pyUpper t) = false →
      startsWithKW "AVOID" (pyUpper t) = false →
      containsKW "PURSUE" (pyUpper t) = false →
      containsKW "CONSIDER" (pyUpper t) = false →
      containsKW "AVOID" (pyUpper t) = false →
      (extract_response_sections s).recommendation_code = "REVIEW") := by
  have hrec : recFields s = (t, recommendationCodeOf t) := by
    unfold recFields
    rw [h]
  have htext : (extract_response_sections s).recommendation = t := by
    show (recFields s).1 = t
    rw [hrec]
  have hcode : (extract_response_sections s).recommendation_code = recommendationCodeOf t := by
    show (recFields s).2 = recommendationCodeOf t
    rw [hrec]
  rw [hcode]
  refine ⟨htext, ?_, ?_, ?_, ?_, ?_, ?_, ?_⟩ <;>
    (intros; unfold recommendationCodeOf; simp_all)

/-- Witness for C4: the spec's own example, a recommendation section whose
text contains both CONSIDER and AVOID but leads with neither keyword,
resolves to CONSIDER by priority. -/
theorem recommendation_code_cases_witness :
    (extract_response_sections
        "<recommendation>maybe consider later, avoid now</recommendation>").recommendation_code
      = "CONSIDER" := by
  have h := recommendation_code_cases
    "<recommendation>maybe consider later, avoid now</recommendation>"
    "maybe consider later, avoid now" (by decide)
  exact h.2.2.2.2.2.1 (by decide) (by decide) (by decide) (by decide) (by decide)

/-- C2: upserting one listing with a non-empty identifier into an empty
store inserts it with `new = 1, updated = 0` and first-seen = last-checked =
the current date; upserting the same listing again on a later date yields
`new = 0, updated = 1` and touches only the last-checked date, leaving
first-seen, title, company and location unchanged. -/
theorem upsert_single_twice (j : Job) (d1 d2 : String) (h : j.job_id ≠ "") :
    add_jobs_to_database [] d1 [j] =
      ([⟨j.job_id, j.title, j.company, j.location, d1, d1, false⟩], 1, 0) ∧
    add_jobs_to_database [⟨j.job_id, j.title, j.company, j.location, d1, d1, false⟩] d2 [j] =
      ([⟨j.job_id, j.title, j.company, j.location, d1, d2, false⟩], 0, 1) := by
  constructor
  · simp [add_jobs_to_database, addJobsStep, jobExists, insertJob, h]
  · simp [add_jobs_to_database, addJobsStep, jobExists, updateLastChecked, h]

/-- Witness for C2 at a concrete listing and pair of dates. -/
theorem upsert_single_twice_witness :
    add_jobs_to_database [] "2025-01-01" [⟨"id1", "t", "c", "l"⟩] =
      ([⟨"id1", "t", "c", "l", "2025-01-01", "2025-01-01", false⟩], 1, 0) ∧
    add_jobs_to_database [⟨"id1", "t", "c", "l", "2025-01-01", "2025-01-01", false⟩]
        "2025-01-02" [⟨"id1", "t", "c", "l"⟩] =
      ([⟨"id1", "t", "c", "l", "2025-01-01", "2025-01-02", false⟩], 0, 1) :=
  upsert_single_twice ⟨"id1", "t", "c", "l"⟩ "2025-01-01" "2025-01-02" (by decide)

/-- C9: `record_scraping_run` appends exactly one row to the run-history
table when the run id is fresh (every existing row is kept unchanged, in
place), and fails with the unique-constraint violation, inserting nothing,
when a row with the same run id already exists. -/
theorem record_run_append_or_conflict (hist : List RunRow) (rid ts cfg : String)
    (jc njc : Nat) :
    ((∀ r ∈ hist, r.run_id ≠ rid) →
      record_scraping_run hist rid ts cfg jc njc =
        Except.ok (hist ++ [⟨rid, ts, cfg, jc, njc⟩])) ∧
    ((∃ r ∈ hist, r.run_id = rid) →
      record_scraping_run hist rid ts cfg jc njc =
        Except.error "UNIQUE constraint failed: scraping_history.run_id") := by
  constructor
  · intro h
    have hb : hist.any (fun r => decide (r.run_id = rid)) = false := by
      simp only [List.any_eq_false, decide_eq_true_eq]
      exact h
    unfold record_scraping_run
    rw [hb]
    simp
  · intro h
    have hb : hist.any (fun r => decide (r.run_id = rid)) = true := by
      simp only [List.any_eq_true, decide_eq_true_eq]
      exact h
    unfold record_scraping_run
    rw [hb]
    simp

/-- Congruence of the primary score field in its own search. -/
theorem scoreField_congr {s₁ s₂ : String} (h : scoreSearch s₁ = scoreSearch s₂) :
    scoreField s₁ = scoreField s₂ := by
  unfold scoreField
  rw [h]

/-- Congruence of a numeric sub-field in its own tag search. -/
theorem numField_congr (tag : String) {s₁ s₂ : String}
    (h : tagSearch tag s₁ = tagSearch tag s₂) :
    numField tag s₁ = numField tag s₂ := by
  unfold numField
  rw [h]

/-- Congruence of a text field in its own tag search. -/
theorem textField_congr (tag : String) {s₁ s₂ : String}
    (h : tagSearch tag s₁ = tagSearch tag s₂) :
    textField tag s₁ = textField tag s₂ := by
  unfold textField
  rw [h]

/-- Congruence of the recommendation pair in its own tag search. -/
theorem recFields_congr {s₁ s₂ : String}
    (h : tagSearch "recommendation" s₁ = tagSearch "recommendation" s₂) :
    recFields s₁ = recFields s₂ := by
  unfold recFields
  rw [h]

/-- C5 (amended to the source's count of ten): `extract_response_sections`
scans for ten independently-delimited tags — the primary numeric score tag
plus nine labeled sections — and every tag is searched independently: the
whole record is a function of the per-tag search results, and each
individual field depends only on the search for its own tag. -/
theorem extract_tag_independence :
    ((["score"] ++ labeledTags).length = 10) ∧
    (∀ s₁ s₂ : String, scoreSearch s₁ = scoreSearch s₂ →
      (∀ t ∈ labeledTags, tagSearch t s₁ = tagSearch t s₂) →
      extract_response_sections s₁ = extract_response_sections s₂) ∧
    (∀ s₁ s₂ : String, scoreSearch s₁ = scoreSearch s₂ →
      (extract_response_sections s₁).score = (extract_response_sections s₂).score) ∧
    (∀ s₁ s₂ : String, tagSearch "human_fit" s₁ = tagSearch "human_fit" s₂ →
      (extract_response_sections s₁).human_fit = (extract_response_sections s₂).human_fit ∧
      (extract_response_sections s₁).human_fit_text
        = (extract_response_sections s₂).human_fit_text) ∧
    (∀ s₁ s₂ : String, tagSearch "ats_fit" s₁ = tagSearch "ats_fit" s₂ →
      (extract_response_sections s₁).ats_fit = (extract_response_sections s₂).ats_fit ∧
      (extract_response_sections s₁).ats_fit_text
        = (extract_response_sections s₂).ats_fit_text) ∧
    (∀ s₁ s₂ : String, tagSearch "key_strengths" s₁ = tagSearch "key_strengths" s₂ →
      (extract_response_sections s₁).key_strengths
        = (extract_response_sections s₂).key_strengths) ∧
    (∀ s₁ s₂ : String, tagSearch "critical_gaps" s₁ = tagSearch "critical_gaps" s₂ →
      (extract_response_sections s₁).critical_gaps
        = (extract_response_sections s₂).critical_gaps) ∧
    (∀ s₁ s₂ : String, tagSearch "cv_tailoring" s₁ = tagSearch "cv_tailoring" s₂ →
      (extract_response_sections s₁).cv_tailoring
        = (extract_response_sections s₂).cv_tailoring) ∧
    (∀ s₁ s₂ : String,
      tagSearch "experience_positioning" s₁ = tagSearch "experience_positioning" s₂ →
      (extract_response_sections s₁).experience_positioning
        = (extract_response_sections s₂).experience_positioning) ∧
    (∀ s₁ s₂ : String, tagSearch "talking_points" s₁ = tagSearch "talking_points" s₂ →
      (extract_response_sections s₁).talking_points
        = (extract_response_sections s₂).talking_points) ∧
    (∀ s₁ s₂ : String, tagSearch "recommendation" s₁ = tagSearch "recommendation" s₂ →
      (extract_response_sections s₁).recommendation
        = (extract_response_sections s₂).recommendation ∧
      (extract_response_sections s₁).recommendation_code
        = (extract_response_sections s₂).recommendation_code) ∧
    (∀ s₁ s₂ : String, tagSearch "summary" s₁ = tagSearch "summary" s₂ →
      (extract_response_sections s₁).summary = (extract_response_sections s₂).summary) := by
  refine ⟨by rfl, ?_, ?_, ?_, ?_, ?_, ?_, ?_, ?_, ?_, ?_, ?_⟩
  · intro s₁ s₂ hs ht
    unfold extract_response_sections
    rw [Sections.mk.injEq]
    refine ⟨scoreField_congr hs,
      numField_congr _ (ht _ (by simp [labeledTags])),
      textField_congr _ (ht _ (by simp [labeledTags])),
      numField_congr _ (ht _ (by simp [labeledTags])),
      textField_congr _ (ht _ (by simp [labeledTags])),
      textField_congr _ (ht _ (by simp [labeledTags])),
      textField_congr _ (ht _ (by simp [labeledTags])),
      textField_congr _ (ht _ (by simp [labeledTags])),
      textField_congr _ (ht _ (by simp [labeledTags])),
      textField_congr _ (ht _ (by simp [labeledTags])),
      congrArg Prod.fst (recFields_congr (ht _ (by simp [labeledTags]))),
      congrArg Prod.snd (recFields_congr (ht _ (by simp [labeledTags]))),
      textField_congr _ (ht _ (by simp [labeledTags]))⟩
  · exact fun s₁ s₂ hs => scoreField_congr hs
  · exact fun s₁ s₂ h => ⟨numField_congr _ h, textField_congr _ h⟩
  · exact fun s₁ s₂ h => ⟨numField_congr _ h, textField_congr _ h⟩
  · exact fun s₁ s₂ h => textField_congr _ h
  · exact fun s₁ s₂ h => textField_congr _ h
  · exact fun s₁ s₂ h => textField_congr _ h
  · exact fun s₁ s₂ h => textField_congr _ h
  · exact fun s₁ s₂ h => textField_congr _ h
  · exact fun s₁ s₂ h =>
      ⟨congrArg Prod.fst (recFields_congr h), congrArg Prod.snd (recFields_congr h)⟩
  · exact fun s₁ s₂ h => textField_congr _ h

/-- Counterexample for C5 as stated: the extractor searches for ten tagged
sections (the score tag plus the nine labeled tags), not eleven. -/
theorem extract_tag_count_not_eleven :
    ¬ ((["score"] ++ labeledTags).length = 11) := by
  decide

/-- C8: the list returned by `analyze_jobs_batch` is sorted by match score
in descending order whatever the (completion) order in which the results
were collected, and it is a permutation of the collected results. -/
theorem batch_results_sorted_desc (collected : List AnalysisResult) :
    List.Sorted (fun a b : AnalysisResult => b.match_score ≤ a.match_score)
      (analyze_jobs_batch collected) ∧
    List.Perm (analyze_jobs_batch collected) collected := by
  constructor
  · have h : (List.mergeSort collected
        (fun a b : AnalysisResult => decide (b.match_score ≤ a.match_score))).Pairwise
        (fun a b : AnalysisResult => decide (b.match_score ≤ a.match_score) = true) := by
      apply List.sorted_mergeSort
      · intro a b c h₁ h₂
        simp only [decide_eq_true_eq] at h₁ h₂ ⊢
        exact le_trans h₂ h₁
      · intro a b
        simp only [Bool.or_eq_true, decide_eq_true_eq]
        exact le_total b.match_score a.match_score
    exact h.imp (fun hab => of_decide_eq_true hab)
  · exact List.mergeSort_perm collected _

/-- Updating last-checked dates does not change the stored identifiers. -/
theorem known_updateLastChecked (db : List JobRow) (jid d : String) :
    get_known_job_ids (updateLastChecked db jid d) = get_known_job_ids db := by
  unfold get_known_job_ids updateLastChecked
  rw [List.map_map]
  apply List.map_congr_left
  intro r _
  by_cases h : r.job_id = jid <;> simp [h]

/-- Inserting a job appends its identifier to the stored identifiers. -/
theorem known_insertJob (db : List JobRow) (j : Job) (d : String) :
    get_known_job_ids (insertJob db j d) = get_known_job_ids db ++ [j.job_id] := by
  simp [get_known_job_ids, insertJob]

/-- The existence check of the upsert agrees with stored-identifier
membership. -/
theorem jobExists_iff (db : List JobRow) (jid : String) :
    jobExists db jid = true ↔ jid ∈ get_known_job_ids db := by
  simp only [jobExists, get_known_job_ids, List.any_eq_true, decide_eq_true_eq, List.mem_map]

/-- Membership in the stored identifiers after an upsert: an identifier is
known afterwards exactly when it was known before or is a non-empty
identifier of one of the upserted jobs. -/
theorem mem_known_after_fold (d x : String) :
    ∀ (js : List Job) (st : List JobRow × Nat × Nat),
      (x ∈ get_known_job_ids (js.foldl (addJobsStep d) st).1 ↔
        x ∈ get_known_job_ids st.1 ∨ (x ≠ "" ∧ x ∈ js.map Job.job_id)) := by
  intro js
  induction js with
  | nil => simp
  | cons j tl ih =>
    intro st
    rw [List.foldl_cons, ih (addJobsStep d st j), List.map_cons, List.mem_cons]
    by_cases hj : j.job_id = ""
    · unfold addJobsStep
      rw [if_pos hj, hj]
      constructor
      · rintro (h | ⟨hne, hm⟩)
        · exact Or.inl h
        · exact Or.inr ⟨hne, Or.inr hm⟩
      · rintro (h | ⟨hne, (heq | hm)⟩)
        · exact Or.inl h
        · exact absurd heq hne
        · exact Or.inr ⟨hne, hm⟩
    · by_cases he : jobExists st.1 j.job_id = true
      · have hmem : j.job_id ∈ get_known_job_ids st.1 := (jobExists_iff _ _).mp he
        unfold addJobsStep
        rw [if_neg hj, if_pos he]
        show x ∈ get_known_job_ids (updateLastChecked st.1 j.job_id d) ∨ _ ↔ _
        rw [known_updateLastChecked]
        constructor
        · rintro (h | ⟨hne, hm⟩)
          · exact Or.inl h
          · exact Or.inr ⟨hne, Or.inr hm⟩
        · rintro (h | ⟨hne, (heq | hm)⟩)
          · exact Or.inl h
          · exact Or.inl (heq ▸ hmem)
          · exact Or.inr ⟨hne, hm⟩
      · unfold addJobsStep
        rw [if_neg hj, if_neg he]
        show x ∈ get_known_job_ids (insertJob st.1 j d) ∨ _ ↔ _
        rw [known_insertJob, List.mem_append, List.mem_singleton]
        constructor
        · rintro ((h | heq) | ⟨hne, hm⟩)
          · exact Or.inl h
          · exact Or.inr ⟨heq ▸ hj, Or.inl heq⟩
          · exact Or.inr ⟨hne, Or.inr hm⟩
        · rintro (h | ⟨hne, (heq | hm)⟩)
          · exact Or.inl (Or.inl h)
          · exact Or.inl (Or.inr heq)
          · exact Or.inr ⟨hne, hm⟩

/-- C1 (amended for empty identifiers): after upserting `L1` into an empty
store, `filter_new_jobs` applied to `L2` returns, in the relative order of
`L2`, exactly the listings of `L2` whose identifier is empty (an empty or
missing `job_id` is never stored, so such listings are always reported as
new) or does not occur among the non-empty identifiers of `L1`. -/
theorem filter_unseen_after_ingest (L1 L2 : List Job) (d : String) (_hsub : L1 ⊆ L2) :
    filter_new_jobs (add_jobs_to_database [] d L1).1 L2 =
      L2.filter (fun j => decide (j.job_id = "" ∨
        j.job_id ∉ (L1.filter (fun i => decide (i.job_id ≠ ""))).map Job.job_id)) := by
  unfold filter_new_jobs
  apply List.filter_congr
  intro j _
  rw [decide_eq_decide]
  unfold add_jobs_to_database
  have hk : j.job_id ∈ get_known_job_ids (L1.foldl (addJobsStep d) ([], 0, 0)).1 ↔
      j.job_id ≠ "" ∧ j.job_id ∈ L1.map Job.job_id := by
    rw [mem_known_after_fold d j.job_id L1 ([], 0, 0)]
    simp [get_known_job_ids]
  have hm : j.job_id ∈ (L1.filter (fun i => decide (i.job_id ≠ ""))).map Job.job_id ↔
      j.job_id ≠ "" ∧ j.job_id ∈ L1.map Job.job_id := by
    simp only [List.mem_map, List.mem_filter, decide_eq_true_eq]
    constructor
    · rintro ⟨i, ⟨hi, hine⟩, hix⟩
      exact ⟨hix ▸ hine, i, hi, hix⟩
    · rintro ⟨hne, i, hi, hix⟩
      exact ⟨i, ⟨hi, hix ▸ hne⟩, hix⟩
  rw [not_congr hk, not_congr hm]
  tauto

/-- Witness for C1 at concrete lists with `L1 ⊆ L2`. -/
theorem filter_unseen_after_ingest_witness :
    filter_new_jobs
        (add_jobs_to_database [] "2025-01-01" [⟨"a", "t", "c", "l"⟩]).1
        [⟨"a", "t", "c", "l"⟩, ⟨"b", "t2", "c2", "l2"⟩] =
      [Job.mk "a" "t" "c" "l", Job.mk "b" "t2" "c2" "l2"].filter
        (fun j => decide (j.job_id = "" ∨
          j.job_id ∉ ([Job.mk "a" "t" "c" "l"].filter
            (fun i => decide (i.job_id ≠ ""))).map Job.job_id)) :=
  filter_unseen_after_ingest [⟨"a", "t", "c", "l"⟩]
    [⟨"a", "t", "c", "l"⟩, ⟨"b", "t2", "c2", "l2"⟩] "2025-01-01"
    (by intro x hx; rw [List.mem_singleton] at hx; rw [hx]; exact List.mem_cons_self _ _)

/-- Counterexample for C1 as stated: with `L1 = L2 = ` a single listing
whose `job_id` is missing (the empty string), the code returns the listing
— an empty identifier is never ingested — while "the listings of `L2` whose
identifier does not occur in `L1`" is the empty list. -/
theorem filter_unseen_literal_counterexample :
    ¬ (filter_new_jobs
          (add_jobs_to_database [] "2025-01-01" [⟨"", "t", "c", "l"⟩]).1
          [⟨"", "t", "c", "l"⟩] =
        [Job.mk "" "t" "c" "l"].filter
          (fun j => decide (j.job_id ∉ [Job.mk "" "t" "c" "l"].map Job.job_id))) := by
  decide

/-- Shape of the upsert fold: the table after `add_jobs_to_database` is the
original rows — each transformed by a function that can only refresh the
last-checked date to the current date — followed by freshly inserted rows
whose first-seen and last-checked dates are both the current date. -/
theorem add_fold_shape (d : String) :
    ∀ (js : List Job) (st : List JobRow × Nat × Nat),
      ∃ g : JobRow → JobRow, ∃ news : List JobRow,
        (js.foldl (addJobsStep d) st).1 = st.1.map g ++ news ∧
        (∀ r : JobRow, (g r).job_id = r.job_id ∧
          (g r).first_seen_date = r.first_seen_date ∧
          (g r).title = r.title ∧ (g r).company = r.company ∧
          (g r).location = r.location ∧ (g r).is_processed = r.is_processed ∧
          ((g r).last_checked_date = r.last_checked_date ∨
            (g r).last_checked_date = d)) ∧
        (∀ x ∈ news, x.first_seen_date = d ∧ x.last_checked_date = d) := by
  intro js
  induction js with
  | nil =>
    intro st
    refine ⟨id, [], by simp, fun r => ⟨rfl, rfl, rfl, rfl, rfl, rfl, Or.inl rfl⟩, by simp⟩
  | cons j tl ih =>
    intro st
    obtain ⟨g, news, heq, hg, hnews⟩ := ih (addJobsStep d st j)
    rw [List.foldl_cons]
    by_cases hj : j.job_id = ""
    · refine ⟨g, news, ?_, hg, hnews⟩
      rw [heq]
      unfold addJobsStep
      rw [if_pos hj]
    · by_cases he : jobExists st.1 j.job_id = true
      · refine ⟨fun r => g (if r.job_id = j.job_id then { r with last_checked_date := d } else r),
          news, ?_, ?_, hnews⟩
        · rw [heq]
          unfold addJobsStep
          rw [if_neg hj, if_pos he]
          show (updateLastChecked st.1 j.job_id d).map g ++ news = _
          rw [updateLastChecked, List.map_map]
          rfl
        · intro r
          dsimp only
          by_cases hr : r.job_id = j.job_id
          · rw [if_pos hr]
            obtain ⟨h1, h2, h3, h4, h5, h6, h7⟩ := hg { r with last_checked_date := d }
            refine ⟨h1, h2, h3, h4, h5, h6, ?_⟩
            rcases h7 with h7 | h7
            · exact Or.inr h7
            · exact Or.inr h7
          · rw [if_neg hr]
            exact hg r
      · obtain ⟨h1, h2, h3, h4, h5, h6, h7⟩ :=
          hg ⟨j.job_id, j.title, j.company, j.location, d, d, false⟩
        refine ⟨g, g ⟨j.job_id, j.title, j.company, j.location, d, d, false⟩ :: news, ?_, hg, ?_⟩
        · rw [heq]
          unfold addJobsStep
          rw [if_neg hj, if_neg he]
          show (insertJob st.1 j d).map g ++ news = _
          rw [insertJob, List.map_append]
          simp
        · intro x hx
          rcases List.mem_cons.mp hx with rfl | hx
          · refine ⟨h2, ?_⟩
            rcases h7 with h7 | h7 <;> exact h7
          · exact hnews x hx

/-- C6: the Listing Store operations preserve the store invariant. Marking
jobs processed only flips the processed flag of the matched rows; an upsert
maps every pre-existing row to a row with the same identifier, first-seen
date, title, company, location and processed flag, at most refreshing the
last-checked date to the current date (so it only advances when the clock
does not go backwards), and appends only fresh rows dated with the current
date. -/
theorem store_invariants (db : List JobRow) (d : String) (jobs : List Job)
    (ids : List String) :
    (mark_jobs_as_processed db ids).1 =
      db.map (fun r => if ids.contains r.job_id then { r with is_processed := true } else r) ∧
    ∃ g : JobRow → JobRow, ∃ news : List JobRow,
      (add_jobs_to_database db d jobs).1 = db.map g ++ news ∧
      (∀ r : JobRow, (g r).job_id = r.job_id ∧
        (g r).first_seen_date = r.first_seen_date ∧
        (g r).title = r.title ∧ (g r).company = r.company ∧
        (g r).location = r.location ∧ (g r).is_processed = r.is_processed ∧
        ((g r).last_checked_date = r.last_checked_date ∨
          (g r).last_checked_date = d)) ∧
      (∀ r : JobRow, r.last_checked_date ≤ d →
        r.last_checked_date ≤ (g r).last_checked_date) ∧
      (∀ x ∈ news, x.first_seen_date = d ∧ x.last_checked_date = d) := by
  constructor
  · unfold mark_jobs_as_processed
    by_cases hids : ids.isEmpty
    · rw [if_pos hids]
      have h0 : ids = [] := by simpa using hids
      subst h0
      show db = _
      rw [List.map_congr_left (fun r _ => by rfl : ∀ r ∈ db,
        (if List.contains [] r.job_id then { r with is_processed := true } else r) = id r)]
      simp
    · rw [if_neg hids]
  · obtain ⟨g, news, heq, hg, hnews⟩ := add_fold_shape d jobs (db, 0, 0)
    refine ⟨g, news, heq, hg, ?_, hnews⟩
    intro r hr
    rcases (hg r).2.2.2.2.2.2 with h | h
    · rw [h]
    · rw [h]
      exact hr

/-- The remote-key dict has an entry for a key exactly when some remote row
with at least 7 columns carries that key in column index 6. -/
theorem existingLookupAux_isSome (k : String) :
    ∀ (remote : List SheetRow) (idx : Nat),
      ((existingLookupAux k idx remote).isSome = true ↔
        ∃ r ∈ remote, 7 ≤ r.length ∧ r.get? 6 = some k) := by
  intro remote
  induction remote with
  | nil => simp [existingLookupAux]
  | cons r rest ih =>
    intro idx
    unfold existingLookupAux
    cases hrec : existingLookupAux k (idx + 1) rest with
    | some v =>
      simp only [Option.isSome_some, true_iff]
      obtain ⟨r', hr', hp⟩ := (ih (idx + 1)).mp (by rw [hrec]; rfl)
      exact ⟨r', List.mem_cons_of_mem _ hr', hp⟩
    | none =>
      have hrest : ¬ ∃ x ∈ rest, 7 ≤ x.length ∧ x.get? 6 = some k := by
        rw [← ih (idx + 1), hrec]
        simp
      by_cases hc : 7 ≤ r.length ∧ r.get? 6 = some k
      · rw [if_pos hc]
        simp only [Option.isSome_some, true_iff]
        exact ⟨r, List.mem_cons_self _ _, hc⟩
      · rw [if_neg hc]
        simp only [Option.isSome_none, Bool.false_eq_true, false_iff]
        rintro ⟨x, hx, hp⟩
        rcases List.mem_cons.mp hx with rfl | hx
        · exact hc hp
        · exact hrest ⟨x, hx, hp⟩

/-- A row with fewer than 7 cells leaves the partition state of
`append_to_sheet` untouched. -/
theorem collectStep_short (remote : List SheetRow) (force : Bool)
    (st : List SheetRow × List (Nat × SheetRow)) (row : SheetRow)
    (h : ¬ 7 ≤ row.length) :
    collectStep remote force st row = st := by
  unfold collectStep
  rw [if_neg h]

/-- Dropping the short rows from the input does not change the partition
computed by `append_to_sheet`. -/
theorem collect_foldl_filter (remote : List SheetRow) (force : Bool) :
    ∀ (values : List SheetRow) (st : List SheetRow × List (Nat × SheetRow)),
      (values.filter (fun r => decide (7 ≤ r.length))).foldl
          (collectStep remote force) st =
        values.foldl (collectStep remote force) st := by
  intro values
  induction values with
  | nil => intro st; rfl
  | cons row tl ih =>
    intro st
    by_cases h7 : 7 ≤ row.length
    · rw [List.filter_cons_of_pos (by simpa using h7), List.foldl_cons, List.foldl_cons, ih]
    · rw [List.filter_cons_of_neg (by simpa using h7), List.foldl_cons, ih,
        collectStep_short remote force st row h7]

/-- C10: rows with fewer than 7 cells are silently dropped by the publisher
— removing them from the input changes neither the returned flag nor the
resulting remote data, under either overwrite mode — the publisher still
returns true, and a remote row with fewer than 7 columns never contributes
an existing key to duplicate detection. -/
theorem publish_short_rows_dropped (remote values : List SheetRow) (f : Bool) :
    append_to_sheet remote (values.filter (fun r => decide (7 ≤ r.length))) f =
      append_to_sheet remote values f ∧
    (append_to_sheet remote values f).1 = true ∧
    ∀ k : String, ((get_existing_job_data remote k).isSome = true ↔
      ∃ r ∈ remote, 7 ≤ r.length ∧ r.get? 6 = some k) := by
  refine ⟨?_, ?_, fun k => existingLookupAux_isSome k remote 0⟩
  · by_cases hv : values.isEmpty
    · have h0 : values = [] := by simpa using hv
      subst h0
      rfl
    · by_cases hfv : (values.filter (fun r => decide (7 ≤ r.length))).isEmpty
      · have hcoll : collectRows remote f values = ([], []) := by
          unfold collectRows
          rw [← collect_foldl_filter remote f values ([], [])]
          have h0 : values.filter (fun r => decide (7 ≤ r.length)) = [] := by
            simpa using hfv
          rw [h0]
          rfl
        unfold append_to_sheet
        rw [if_pos hfv, if_neg hv, hcoll]
        simp
      · unfold append_to_sheet
        rw [if_neg hfv, if_neg hv]
        unfold collectRows
        rw [collect_foldl_filter remote f values ([], [])]
  · unfold append_to_sheet
    by_cases hv : values.isEmpty
    · rw [if_pos hv]
    · rw [if_neg hv]

/-- The partition of `append_to_sheet` with `force_update = false` is empty
when every input row's key is already present remotely. -/
theorem collect_nil_of_existing (remote : List SheetRow) :
    ∀ (values : List SheetRow),
      (∀ row ∈ values, ∃ k, row.get? 6 = some k ∧
        (get_existing_job_data remote k).isSome = true) →
      ∀ st, values.foldl (collectStep remote false) st = st := by
  intro values
  induction values with
  | nil => intro _ st; rfl
  | cons row tl ih =>
    intro h st
    obtain ⟨k, hk, hsome⟩ := h row (List.mem_cons_self _ _)
    have h7 : 7 ≤ row.length := by
      have := List.get?_eq_some.mp hk
      exact this.1
    have hstep : collectStep remote false st row = st := by
      unfold collectStep
      rw [if_pos h7]
      have hgd : (row.get? 6).getD "" = k := by rw [hk]; rfl
      rw [hgd]
      obtain ⟨p, hp⟩ := Option.isSome_iff_exists.mp hsome
      rw [hp]
      rfl
    rw [List.foldl_cons, hstep]
    exact ih (fun r hr => h r (List.mem_cons_of_mem _ hr)) st

/-- C7: publishing with `overwrite = false` when every input row's key is
already present remotely returns true, appends nothing, performs no update,
and leaves the remote data unchanged — the rows are dropped silently; a
call with an empty row list likewise returns true and changes nothing. -/
theorem publish_no_overwrite_all_existing (remote values : List SheetRow)
    (h : ∀ row ∈ values, ∃ k, row.get? 6 = some k ∧
      (get_existing_job_data remote k).isSome = true) :
    append_to_sheet remote values false = (true, remote) ∧
    ∀ f : Bool, append_to_sheet remote [] f = (true, remote) := by
  refine ⟨?_, fun f => rfl⟩
  by_cases hv : values.isEmpty
  · unfold append_to_sheet
    rw [if_pos hv]
  · have hcoll : collectRows remote false values = ([], []) :=
      collect_nil_of_existing remote values h ([], [])
    unfold append_to_sheet
    rw [if_neg hv, hcoll]
    rfl

/-- Witness for C7: one remote row holding key `k1`, one input row with the
same key; the publisher returns true and the remote data is unchanged. -/
theorem publish_no_overwrite_witness :
    append_to_sheet [["a", "b", "c", "d", "e", "f", "k1"]]
        [["x", "x", "x", "x", "x", "x", "k1"]] false =
      (true, [["a", "b", "c", "d", "e", "f", "k1"]]) :=
  (publish_no_overwrite_all_existing [["a", "b", "c", "d", "e", "f", "k1"]]
    [["x", "x", "x", "x", "x", "x", "k1"]]
    (by
      intro row hr
      rw [List.mem_singleton] at hr
      subst hr
      exact ⟨"k1", rfl, rfl⟩)).1

end LinkedinJobSearch
